import Mathlib

/-!
# Verification of the ai-code-agent core

A shallow embedding, in Lean 4, of the retry-orchestrator state machine,
sandbox executor, validation aggregator and input parser of the
`ai-code-agent` repository, together with theorems settling the frozen
claims about them.

Conventions of the embedding:
* Python strings are Lean `String`s; `str.lower()/.upper()/.strip()` are
  modelled on their ASCII behaviour (`Char.toLower`, `Char.toUpper`,
  `String.trim`), and the Python substring test `a in b` is
  `pyIn a b` (infix containment of character lists).
* External effects (the LLM, Docker container runs, validation tools) are
  oracle parameters: each embedded function takes the outcome of the
  effectful call as an explicit argument, so theorems quantify over every
  possible behaviour of the collaborator.
* Fallible Python code (functions that `raise`) returns `Except`/`Option`.
-/

namespace AiCodeAgent

/-- Python `\s` / `str.strip()` whitespace on ASCII. -/
def isPyWs (c : Char) : Bool :=
  c = ' ' || c = '\t' || c = '\n' || c = '\r' || c = '\x0b' || c = '\x0c'

/-- Python `str.lower()` restricted to ASCII case mapping. -/
def pyLower (s : String) : String := String.mk (s.toList.map Char.toLower)

/-- Python `str.upper()` restricted to ASCII case mapping. -/
def pyUpper (s : String) : String := String.mk (s.toList.map Char.toUpper)

/-- Python `needle in hay` substring test on strings. -/
def pyIn (needle hay : String) : Bool := decide (List.IsInfix needle.toList hay.toList)

/-- Python `str.strip()` (ASCII whitespace both ends). -/
def pyStrip (s : String) : String :=
  String.mk (((s.toList.dropWhile isPyWs).reverse.dropWhile isPyWs).reverse)

/-- Python slice `s[:n]`. -/
def pyTake (s : String) (n : Nat) : String := ⟨s.toList.take n⟩

/-- Split a character list at every occurrence of `sep`, Python
`str.split(sep)` semantics (no collapsing; the empty string yields `[""]`). -/
def splitOnChar (sep : Char) : List Char → List (List Char)
  | [] => [[]]
  | c :: cs =>
      let r := splitOnChar sep cs
      if c = sep then [] :: r
      else
        match r with
        | [] => [[c]]
        | h :: t => (c :: h) :: t

/-- Python `content.split("\n")`. -/
def pySplitNl (s : String) : List String := (splitOnChar '\n' s.toList).map String.mk

/-- Case-insensitive substring containment, the reading the spec gives to
phrases like "contains the substring `PASS` compared case-insensitively". -/
def ciContains (needle hay : String) : Bool := pyIn (pyUpper needle) (pyUpper hay)

/-! ## Agent state (`src/agent/state.py` is consumed via its fields)

`CodeAgentState` is a `TypedDict`; the fields below are exactly those the
embedded nodes read or write.  LangGraph merges the partial dict a node
returns into the running state, so each embedded node returns the full
updated record (`{ s with ... }`). -/

structure AgentState where
  problem_description : String
  target_language : String
  requirements : String
  iteration_count : Nat
  max_iterations : Nat
  generated_code : String
  code_explanation : String
  review_feedback : String
  error_message : String
  execution_output : String
  execution_error : String
  execution_success : Bool
  execution_time_ms : Nat
  validation_passed : Bool
  validation_errors : List String
  validation_details : List (String × String)
  functional_valid : Bool
  security_valid : Bool
  quality_valid : Bool
  performance_valid : Bool
  status : String
  current_feedback : String
  feedback_history : List String
  llm_model_used : String
  llm_calls_made : Nat
  total_tokens_used : Nat
  docx_filename : Option String
  final_success : Bool
deriving Repr, DecidableEq

/-! ## Graph routing (`src/agent/graph.py`) -/

/-- `review_outcome` in `CodeGenerationGraph._build_graph`
(src/agent/graph.py:39-49): forces `"pass"` once
`iteration_count >= max_iterations`, otherwise passes iff the review
feedback, uppercased, contains `"PASS"`. -/
def review_outcome (s : AgentState) : String :=
  if s.max_iterations ≤ s.iteration_count then "pass"
  else if pyIn "PASS" (pyUpper s.review_feedback) then "pass"
  else "retry"

/-- `CodeGenerationGraph.should_retry` (src/agent/graph.py:86-94). -/
def should_retry (s : AgentState) : String :=
  if s.validation_passed then "complete"
  else if s.max_iterations ≤ s.iteration_count then "complete"
  else "retry"

/-! ## Sandbox execution engine (`src/execution/executor.py`) -/

/-- The keys of `CodeExecutor.IMAGE_MAP` (src/execution/executor.py:23-30):
the executor's supported-language set. -/
def IMAGE_MAP_KEYS : List String := ["python", "javascript", "java", "c", "cpp", "go"]

/-- The dict returned by `CodeExecutor.execute_code` /
`CodeExecutor._execute_in_container`. -/
structure ExecutionResult where
  success : Bool
  output : String
  error : String
  exit_code : Int
  execution_time_ms : Nat
deriving Repr, DecidableEq

/-- Outcome of one Docker container run, as observed by
`CodeExecutor._execute_in_container`'s `try` block: either `container.wait`
completes with a status code and the two captured log streams, or one of
the exception branches fires.  `elapsedMs` abstracts the wall-clock
measurement (`round(elapsed_ms, 2)` on a float is modelled as a `Nat`). -/
inductive ContainerOutcome where
  /-- `container.wait` returned `{'StatusCode': statusCode}`; `stdoutLog` and
  `stderrLog` are the decoded log streams. -/
  | completed (statusCode : Int) (stdoutLog stderrLog : String) (elapsedMs : Nat)
  /-- `docker.errors.ContainerError` with exit status, optional stderr bytes
  and `str(e)` fallback text. -/
  | containerError (exitStatus : Int) (stderrBytes : Option String) (text : String)
      (elapsedMs : Nat)
  /-- any other exception, carrying `str(e)`. -/
  | otherError (text : String) (elapsedMs : Nat)
deriving Repr, DecidableEq

/-- `CodeExecutor._execute_in_container` (src/execution/executor.py:134-244),
with the container run abstracted into the `oc` oracle. -/
def execute_in_container (oc : ContainerOutcome) (timeoutSecs : Nat) : ExecutionResult :=
  match oc with
  | .completed statusCode stdoutLog stderrLog elapsedMs =>
      { success := statusCode = 0
        output := pyStrip stdoutLog
        error := if stderrLog ≠ "" then pyStrip stderrLog else ""
        exit_code := statusCode
        execution_time_ms := elapsedMs }
  | .containerError exitStatus stderrBytes text elapsedMs =>
      { success := false
        output := ""
        error := stderrBytes.getD text
        exit_code := exitStatus
        execution_time_ms := elapsedMs }
  | .otherError text elapsedMs =>
      if pyIn "timeout" (pyLower text) then
        { success := false
          output := ""
          error := "Execution timeout after " ++ toString timeoutSecs ++ " seconds"
          exit_code := -1
          execution_time_ms := elapsedMs }
      else
        { success := false
          output := ""
          error := text
          exit_code := -1
          execution_time_ms := elapsedMs }

/-- `CodeExecutor.execute_code` (src/execution/executor.py:54-132).  The
scratch-file bookkeeping is effect-free for the result and is abstracted;
the second component counts containers launched (`self.client.containers.run`
is reached only on the supported-language path). -/
def execute_code (oc : ContainerOutcome) (_code language : String) (timeoutSecs : Nat) :
    ExecutionResult × Nat :=
  let lang := pyLower language
  if IMAGE_MAP_KEYS.contains lang then
    (execute_in_container oc timeoutSecs, 1)
  else
    ({ success := false
       output := ""
       error := "Unsupported language: " ++ lang
       exit_code := -1
       execution_time_ms := 0 }, 0)

/-! ## Validation aggregator (`src/validation/*.py` and
`AgentNodes.validate_code_node`)

Each validator's `run_tool` launches one short-lived container and returns
its combined log text, or raises; the oracle `vo : String → Except String String`
maps a tool name to that outcome (`Except.error e` models a raised
exception with text `e`).  A validator returns the `details` dict
(an association list keyed by tool name); validators whose Python code can
propagate a tool's exception return `Except`. -/

/-- Tool-runner oracle: for each tool name, the container run's output, or
the text of the exception the invocation raised. -/
def ToolOracle := String → Except String String

/-- `PythonValidator.validate` (src/validation/quality.py:23-46): every tool
invocation is individually wrapped in `try/except`, a raise becoming the
entry `"Error running {tool}: {e}"`. -/
def pythonValidate (vo : ToolOracle) : List (String × String) :=
  ["pylint", "flake8", "bandit", "black"].map fun tool =>
    (tool, match vo tool with
           | .ok out => out
           | .error e => "Error running " ++ tool ++ ": " ++ e)

/-- `GoValidator.validate` (src/validation/go_quality.py:12-20): the two
`run_tool` calls are *not* individually guarded, so a raise in `go vet`
propagates before `go build` is attempted. -/
def goValidate (vo : ToolOracle) : Except String (List (String × String)) := do
  let out1 ← vo "govet"
  let out2 ← vo "gobuild"
  return [("govet", out1), ("gobuild", out2)]

/-- `CppValidator.validate` (src/validation/cpp_quality.py): same unguarded
sequencing as the Go validator. -/
def cppValidate (vo : ToolOracle) : Except String (List (String × String)) := do
  let out1 ← vo "cppcheck"
  let out2 ← vo "g++"
  return [("cppcheck", out1), ("g++", out2)]

/-- `JavaValidator.validate` (src/validation/java_quality.py): a single
unguarded `javac` run. -/
def javaValidate (vo : ToolOracle) : Except String (List (String × String)) := do
  let out ← vo "javac"
  return [("javac", out)]

/-- Modelled from the spec: `src/validation/js_quality.py`
(`JavaScriptValidator.validate`) is imported by `validate_code_node` but is
not under `src/`; per §4.3 each tool runs in its own container and "any
tool invocation that itself throws is captured as a diagnostic", so a raise
is captured into the single `eslint` entry like the Python validator does. -/
def jsValidate (vo : ToolOracle) : List (String × String) :=
  ["eslint"].map fun tool =>
    (tool, match vo tool with
           | .ok out => out
           | .error e => "Error running " ++ tool ++ ": " ++ e)

/-- Modelled from the spec: `src/validation/c_quality.py`
(`CValidator.validate`) is imported by `validate_code_node` but is not under
`src/`; per §4.3 each tool's throw is captured as a diagnostic, mirroring
the Python validator's per-tool guard, with the `cppcheck`/`gcc` battery
that `validate_code_node` inspects. -/
def cValidate (vo : ToolOracle) : List (String × String) :=
  ["cppcheck", "gcc"].map fun tool =>
    (tool, match vo tool with
           | .ok out => out
           | .error e => "Error running " ++ tool ++ ": " ++ e)

/-- Python `details.get(tool, "")` on the details dict. -/
def detailsGet (details : List (String × String)) (tool : String) : String :=
  (details.lookup tool).getD ""

/-- The escalation test of the `python` branch of `validate_code_node`
(src/agent/nodes.py:311): Python operator precedence parses
`out and "Error" in out or "warning" in out.lower() or "issue" in out.lower()`
as `(out and "Error" in out) or ... or ...`, so the `"Error"` test is
case-sensitive and only it is guarded by non-emptiness. -/
def pyEscalates (out : String) : Bool :=
  (out ≠ "" && pyIn "Error" out) || pyIn "warning" (pyLower out) || pyIn "issue" (pyLower out)

/-- Escalation test of the `javascript` branch (src/agent/nodes.py:319). -/
def jsEscalates (out : String) : Bool :=
  out ≠ "" && (pyIn "error" (pyLower out) || pyIn "problem" (pyLower out) ||
    pyIn "warning" (pyLower out))

/-- Escalation test of the `java` branch (src/agent/nodes.py:327). -/
def javaEscalates (out : String) : Bool :=
  out ≠ "" && (pyIn "error" (pyLower out) || pyIn "exception" (pyLower out))

/-- Escalation test of the `c` and `cpp` branches (src/agent/nodes.py:336,345). -/
def cEscalates (out : String) : Bool :=
  out ≠ "" && (pyIn "error" (pyLower out) || pyIn "failed" (pyLower out) ||
    pyIn "warning" (pyLower out))

/-- Escalation test of the `go` branch (src/agent/nodes.py:354). -/
def goEscalates (out : String) : Bool :=
  out ≠ "" && (pyIn "error" (pyLower out) || pyIn "fail" (pyLower out) ||
    pyIn "warning" (pyLower out))

/-- The diagnostic string appended for an escalated tool
(src/agent/nodes.py:312 etc.): `f"{tool}: {out.strip()[:200]}"`. -/
def escalationMsg (tool out : String) : String :=
  tool ++ ": " ++ pyTake (pyStrip out) 200

/-- The error-collection loop the node runs over one battery:
`for tool in [...]: if cond(out): errors.append(msg)`. -/
def collectErrors (tools : List String) (cond : String → Bool)
    (details : List (String × String)) : List String :=
  tools.filterMap fun tool =>
    let out := detailsGet details tool
    if cond out then some (escalationMsg tool out) else none

/-- The `(errors, details)` pair computed by the `try/except` dispatch of
`AgentNodes.validate_code_node` (src/agent/nodes.py:303-367) for a given
target language: per-language validator, then the branch's collection loop;
an exception propagating out of a validator is caught by the node-level
`except` and becomes the single `"Validation engine error: ..."` diagnostic
(with `details` left at its initial `{}`); an unsupported language appends
its single diagnostic without consulting any validator. -/
def validationOutcome (vo : ToolOracle) (lang : String) :
    List String × List (String × String) :=
  if lang = "python" then
    let d := pythonValidate vo
    (collectErrors ["pylint", "flake8", "bandit", "black"] pyEscalates d, d)
  else if lang = "javascript" then
    let d := jsValidate vo
    (collectErrors ["eslint"] jsEscalates d, d)
  else if lang = "java" then
    match javaValidate vo with
    | .ok d => (collectErrors ["javac"] javaEscalates d, d)
    | .error e => (["Validation engine error: " ++ e], [])
  else if lang = "c" then
    let d := cValidate vo
    (collectErrors ["cppcheck", "gcc"] cEscalates d, d)
  else if lang = "cpp" then
    match cppValidate vo with
    | .ok d => (collectErrors ["cppcheck", "g++"] cEscalates d, d)
    | .error e => (["Validation engine error: " ++ e], [])
  else if lang = "go" then
    match goValidate vo with
    | .ok d => (collectErrors ["govet", "gobuild"] goEscalates d, d)
    | .error e => (["Validation engine error: " ++ e], [])
  else
    (["Unsupported language: " ++ lang], [])

/-- `AgentNodes.validate_code_node` (src/agent/nodes.py:292-386). -/
def validate_code_node (vo : ToolOracle) (s : AgentState) : AgentState :=
  let eo := validationOutcome vo s.target_language
  let errors := eo.1
  let validation_passed := errors.length = 0
  let feedback := if errors.isEmpty then "No issues detected."
    else String.intercalate "\n" errors
  { s with
    validation_passed := validation_passed
    validation_errors := errors
    validation_details := eo.2
    functional_valid := validation_passed
    security_valid := validation_passed
    quality_valid := validation_passed
    performance_valid := true
    status := if validation_passed then "completed" else "failed"
    current_feedback := feedback
    feedback_history := s.feedback_history ++ (if feedback ≠ "" then [feedback] else [])
    iteration_count := s.iteration_count + 1 }

/-! ## Agent nodes (`src/agent/nodes.py`) -/

/-- `settings.groq_model` default (src/utils/config.py:18). -/
def groqModel : String := "llama-3.1-70b-versatile"

/-- `settings.code_timeout_seconds` default (src/utils/config.py:32). -/
def codeTimeoutSeconds : Nat := 30

/-- Outcome of one `self.llm.invoke(prompt)` call in `generate_code_node`,
after the response post-processing that cannot raise: `code` is the result
of `_extract_code_from_response` on the response text, `rawText` the
response content, `tokens` the `total_tokens` usage (0 when absent). -/
structure LlmOutcome where
  code : String
  rawText : String
  tokens : Nat
deriving Repr, DecidableEq

/-- `AgentNodes.generate_code_node` (src/agent/nodes.py:34-103).  The LLM
call is the oracle: `.ok g` is the success branch (src/agent/nodes.py:86-95),
`.error e` the `except Exception` branch (src/agent/nodes.py:97-103), whose
returned dict carries no `iteration_count` key, so the merged state keeps
the old count. -/
def generate_code_node (llm : Except String LlmOutcome) (s : AgentState) : AgentState :=
  match llm with
  | .ok g =>
      { s with
        generated_code := g.code
        code_explanation := g.rawText
        iteration_count := s.iteration_count + 1
        llm_model_used := groqModel
        llm_calls_made := s.llm_calls_made + 1
        total_tokens_used := s.total_tokens_used + g.tokens
        status := "generating" }
  | .error e =>
      { s with
        generated_code := ""
        error_message := "Code generation failed: " ++ e
        status := "failed" }

/-- `AgentNodes.review_code_node` (src/agent/nodes.py:193-241): invokes the
critique collaborator (the `fb` oracle) and returns `{**state,
"review_feedback": feedback}`. -/
def review_code_node (fb : String) (s : AgentState) : AgentState :=
  { s with review_feedback := fb }

/-- `AgentNodes.execute_code_node` (src/agent/nodes.py:244-289): delegates
to `CodeExecutor.execute_code`; the node-level `except` (covering e.g. the
`CodeExecutor` constructor's `RuntimeError` when Docker is unavailable) is
the oracle's `.error` case. -/
def execute_code_node (exo : Except String ContainerOutcome) (s : AgentState) : AgentState :=
  match exo with
  | .ok oc =>
      let r := (execute_code oc s.generated_code s.target_language codeTimeoutSeconds).1
      { s with
        execution_output := r.output
        execution_error := r.error
        execution_success := r.success
        execution_time_ms := r.execution_time_ms
        status := "validating" }
  | .error e =>
      { s with
        execution_output := ""
        execution_error := "Execution failed: " ++ e
        execution_success := false
        execution_time_ms := 0
        status := "failed" }

/-- `AgentNodes.generate_document_node` (src/agent/nodes.py:388-391). -/
def generate_document_node (s : AgentState) : AgentState :=
  { s with docx_filename := none, final_success := true, status := "completed" }

/-! ## The workflow state machine (`CodeGenerationGraph._build_graph`)

The graph's nodes and conditional edges: entry `generate_code`, then
`review_code` judged by `review_outcome` (on the state *after* the review
node ran), `execute_code`, `validate_code` judged by `should_retry` (after
the validation node ran), and `generate_document` before `END`.
`generate_document_node` never touches `iteration_count`, so the extra
unconditional `validate_code → generate_document` edge the source also adds
cannot change any iteration-count fact and the machine is modelled with the
conditional routing. -/

/-- The graph node about to run (`done` is LangGraph's `END`). -/
inductive Phase where
  | generate | review | execute | validate | document | done
deriving Repr, DecidableEq

/-- One transition of the workflow: runs the current phase's node function
with an arbitrary collaborator outcome and routes per the graph's edges. -/
inductive Step : Phase × AgentState → Phase × AgentState → Prop where
  | generate (llm : Except String LlmOutcome) (s : AgentState) :
      Step (.generate, s) (.review, generate_code_node llm s)
  | review_pass (fb : String) (s : AgentState)
      (h : review_outcome (review_code_node fb s) = "pass") :
      Step (.review, s) (.execute, review_code_node fb s)
  | review_retry (fb : String) (s : AgentState)
      (h : review_outcome (review_code_node fb s) = "retry") :
      Step (.review, s) (.generate, review_code_node fb s)
  | execute (exo : Except String ContainerOutcome) (s : AgentState) :
      Step (.execute, s) (.validate, execute_code_node exo s)
  | validate_complete (vo : ToolOracle) (s : AgentState)
      (h : should_retry (validate_code_node vo s) = "complete") :
      Step (.validate, s) (.document, validate_code_node vo s)
  | validate_retry (vo : ToolOracle) (s : AgentState)
      (h : should_retry (validate_code_node vo s) = "retry") :
      Step (.validate, s) (.generate, validate_code_node vo s)
  | document (s : AgentState) :
      Step (.document, s) (.done, generate_document_node s)

/-- Zero or more workflow transitions. -/
abbrev Reaches : Phase × AgentState → Phase × AgentState → Prop :=
  Relation.ReflTransGen Step

/-! ## Input parser (`src/agent/input_parser.py`)

The five `LANGUAGE_PATTERNS` regexes all have the shape
literal-text / whitespace runs / one trailing `(\w+)` capture group.  They
are embedded as token lists over a deterministic matcher: because the
whitespace class and both the literal characters and `\w` are disjoint,
greedy maximal-munch matching agrees with Python `re` backtracking on these
patterns, and `re.search`'s leftmost-match rule is the positionwise scan of
`reSearch`.  `re.IGNORECASE` lowers both sides of literal comparisons; the
capture is returned in original case, as `match.group(1)` is. -/

/-- Python `\w` on ASCII. -/
def isPyWord (c : Char) : Bool := c.isAlpha || c.isDigit || c = '_'

/-- One regex token of a `LANGUAGE_PATTERNS` entry. -/
inductive RTok where
  /-- a literal character, compared case-insensitively. -/
  | lit (c : Char)
  /-- `\s*`. -/
  | wsStar
  /-- `\s+`. -/
  | wsPlus
  /-- the trailing `(\w+)` capture group. -/
  | word
deriving Repr, DecidableEq

/-- Match a token list at the head of `cs`, returning the `(\w+)` capture. -/
def matchToks : List RTok → List Char → Option String
  | [], _ => none
  | .word :: _, cs =>
      let w := cs.takeWhile isPyWord
      if w.isEmpty then none else some (String.mk w)
  | .lit c :: ts, d :: ds =>
      if d.toLower = c.toLower then matchToks ts ds else none
  | .lit _ :: _, [] => none
  | .wsStar :: ts, cs => matchToks ts (cs.dropWhile isPyWs)
  | .wsPlus :: ts, d :: ds =>
      if isPyWs d then matchToks ts ((d :: ds).dropWhile isPyWs) else none
  | .wsPlus :: _, [] => none

/-- `re.search`: try the pattern at each position, leftmost match wins. -/
def reSearch (toks : List RTok) : List Char → Option String
  | [] => matchToks toks []
  | c :: cs =>
      match matchToks toks (c :: cs) with
      | some w => some w
      | none => reSearch toks cs

/-- Literal regex text as tokens. -/
def litToks (s : String) : List RTok := s.toList.map RTok.lit

/-- `InputParser.LANGUAGE_PATTERNS` (src/agent/input_parser.py:17-23). -/
def LANGUAGE_PATTERNS : List (List RTok) :=
  [ litToks "language:" ++ [.wsStar, .word],
    litToks "programming language:" ++ [.wsStar, .word],
    litToks "use" ++ [.wsPlus, .word],
    litToks "write" ++ [.wsPlus] ++ litToks "in" ++ [.wsPlus, .word],
    litToks "code" ++ [.wsPlus] ++ litToks "in" ++ [.wsPlus, .word] ]

/-- `InputParser.SUPPORTED_LANGUAGES` (src/agent/input_parser.py:25-36). -/
def SUPPORTED_LANGUAGES : List (String × String) :=
  [("python", "python"), ("py", "python"),
   ("javascript", "javascript"), ("js", "javascript"),
   ("java", "java"), ("c", "c"),
   ("cpp", "cpp"), ("c++", "cpp"),
   ("go", "go"), ("golang", "go")]

/-- `InputParser._extract_language` (src/agent/input_parser.py:103-121):
first matching declaration pattern, else the stripped first line when it is
a supported alias, else `none` (the `ValueError` raise). -/
def extract_language (content : String) : Option String :=
  match LANGUAGE_PATTERNS.firstM (fun p => reSearch p content.toList) with
  | some lang => some lang
  | none =>
      let firstLine := pyStrip ((pySplitNl content).headD "")
      if (SUPPORTED_LANGUAGES.lookup (pyLower firstLine)).isSome then some firstLine
      else none

/-- The line filter of `InputParser._extract_problem`
(src/agent/input_parser.py:128-142): skip the first line containing the
language (case-insensitively), and every structural-header line. -/
def problemLines (langLower : String) : Bool → List String → List String
  | _, [] => []
  | languageFound, l :: ls =>
      if !languageFound && pyIn langLower (pyLower l) then
        problemLines langLower true ls
      else if ["problem:", "problem", "task:", "task"].contains (pyLower (pyStrip l)) then
        problemLines langLower languageFound ls
      else
        l :: problemLines langLower languageFound ls

/-- `InputParser._extract_problem` (src/agent/input_parser.py:123-149);
`.error` is the `ValueError("Problem description is empty")` raise. -/
def extract_problem (content language : String) : Except String String :=
  let problem :=
    pyStrip (String.intercalate "\n" (problemLines (pyLower language) false (pySplitNl content)))
  if problem = "" then .error "Problem description is empty" else .ok problem

/-- The distinct raise sites of `InputParser.parse_file`. -/
inductive ParseError where
  /-- `ValueError("Input file is empty")` (src/agent/input_parser.py:76). -/
  | emptyFile
  /-- `ValueError("Could not detect programming language...")`
  (src/agent/input_parser.py:118). -/
  | noLanguage
  /-- `ValueError("Problem description is empty")`
  (src/agent/input_parser.py:147). -/
  | emptyProblem
  /-- `ValueError(f"Unsupported language: {language}...")`
  (src/agent/input_parser.py:90). -/
  | unsupportedLanguage (language : String)
deriving Repr, DecidableEq

/-- `InputParser.parse_file` (src/agent/input_parser.py:38-101) on the file's
raw text (the filesystem read is outside the embedding): strip, reject empty
content, extract language and problem, normalize the language alias. -/
def parse_content (raw : String) : Except ParseError (String × String) :=
  let content := pyStrip raw
  if content = "" then .error .emptyFile
  else
    match extract_language content with
    | none => .error .noLanguage
    | some language =>
        match extract_problem content language with
        | .error _ => .error .emptyProblem
        | .ok problem =>
            match SUPPORTED_LANGUAGES.lookup (pyLower language) with
            | none => .error (.unsupportedLanguage language)
            | some normalized => .ok (problem, normalized)

/-! ## Spec-side vocabulary

Definitions written from the spec's words, to be compared with the
embedded code: the per-language tool battery, the designated diagnostic
keywords, and the escalation predicate. -/

/-- The validator dispatch seen as one function: the details dict each
branch of `validate_code_node` receives, or the exception text that
propagates to the node-level `except`. -/
def validatorDetails (vo : ToolOracle) (lang : String) :
    Except String (List (String × String)) :=
  if lang = "python" then .ok (pythonValidate vo)
  else if lang = "javascript" then .ok (jsValidate vo)
  else if lang = "java" then javaValidate vo
  else if lang = "c" then .ok (cValidate vo)
  else if lang = "cpp" then cppValidate vo
  else if lang = "go" then goValidate vo
  else .ok []

/-- The tool battery `validate_code_node` judges for each language. -/
def batteryOf (lang : String) : List String :=
  if lang = "python" then ["pylint", "flake8", "bandit", "black"]
  else if lang = "javascript" then ["eslint"]
  else if lang = "java" then ["javac"]
  else if lang = "c" then ["cppcheck", "gcc"]
  else if lang = "cpp" then ["cppcheck", "g++"]
  else if lang = "go" then ["govet", "gobuild"]
  else []

/-- The per-language designated keywords that are genuinely compared
case-insensitively. -/
def ciKeywordsOf (lang : String) : List String :=
  if lang = "python" then ["warning", "issue"]
  else if lang = "javascript" then ["error", "problem", "warning"]
  else if lang = "java" then ["error", "exception"]
  else if lang = "c" then ["error", "failed", "warning"]
  else if lang = "cpp" then ["error", "failed", "warning"]
  else if lang = "go" then ["error", "fail", "warning"]
  else []

/-- The claim's escalation predicate as the spec words it for the Python
battery: presence of a designated keyword (`error`, `warning`, `issue`)
compared case-insensitively. -/
def claimEscalatesPython (out : String) : Bool :=
  ciContains "error" out || ciContains "warning" out || ciContains "issue" out

/-- The amended escalation predicate, in the spec's case-insensitive
vocabulary (`ciContains`), keeping the Python branch's case-SENSITIVE
`"Error"` disjunct that the code actually implements. -/
def escalatesSpec (lang out : String) : Bool :=
  (lang = "python" && out ≠ "" && pyIn "Error" out) ||
  (out ≠ "" && (ciKeywordsOf lang).any (fun k => ciContains k out))

/-- The per-phase iteration-count invariant of the workflow machine
that the reachability proof maintains. -/
def countInv : Phase → AgentState → Prop
  | .generate, s => s.iteration_count < s.max_iterations
  | .review, s => s.iteration_count ≤ s.max_iterations
  | .execute, s => s.iteration_count ≤ s.max_iterations
  | .validate, s => s.iteration_count ≤ s.max_iterations
  | .document, s => s.iteration_count ≤ s.max_iterations + 1
  | .done, s => s.iteration_count ≤ s.max_iterations + 1

/-! ## Concrete inputs for counterexamples and witnesses -/

/-- A fresh session state (the shape `create_initial_state` produces:
iteration count 0, nothing generated yet). -/
def initialState (problem lang : String) (maxIter : Nat) : AgentState :=
  { problem_description := problem
    target_language := lang
    requirements := ""
    iteration_count := 0
    max_iterations := maxIter
    generated_code := ""
    code_explanation := ""
    review_feedback := ""
    error_message := ""
    execution_output := ""
    execution_error := ""
    execution_success := false
    execution_time_ms := 0
    validation_passed := false
    validation_errors := []
    validation_details := []
    functional_valid := false
    security_valid := false
    quality_valid := false
    performance_valid := false
    status := "pending"
    current_feedback := ""
    feedback_history := []
    llm_model_used := ""
    llm_calls_made := 0
    total_tokens_used := 0
    docx_filename := none
    final_success := false }

/-- Ceiling-1 session used against claim C1: start of the run. -/
def cex0 : AgentState := initialState "print the number 1" "python" 1

/-- After the first synthesis call (iteration count 1). -/
def cex1 : AgentState := generate_code_node (.ok ⟨"print(1)", "print(1)", 12⟩) cex0

/-- After the review node stored failing feedback; the ceiling check then
forces the pass route. -/
def cex2 : AgentState := review_code_node "The code is wrong; it does not print 1." cex1

/-- After the sandbox ran the candidate successfully. -/
def cex3 : AgentState := execute_code_node (.ok (.completed 0 "1" "" 57)) cex2

/-- After validation: all tools silent, verdict passes, and the node
increments the iteration count a second time, to 2. -/
def cex4 : AgentState := validate_code_node (fun _ => .ok "") cex3

/-- Terminal state of the ceiling-1 run: iteration count 2 exceeds the
ceiling 1. -/
def cex5 : AgentState := generate_document_node cex4

/-- Tool oracle whose `go vet` container run raises while `go build`
would have produced output. -/
def goBoomOracle : ToolOracle := fun t =>
  if t = "govet" then .error "docker daemon hiccup" else .ok "build output: fine"

/-! ## Helper lemmas -/

theorem char_toNat_inj {c d : Char} (h : c.toNat = d.toNat) : c = d := by
  apply Char.ext
  exact UInt32.toNat.inj h

theorem toNat_ofNat_valid (n : Nat) (h1 : 65 ≤ n) (h2 : n ≤ 122) : (Char.ofNat n).toNat = n := by
  have hv : n.isValidChar := Or.inl (by omega)
  simp [Char.ofNat, hv, Char.ofNatAux, Char.toNat, UInt32.toNat, BitVec.toNat_ofNatLt]

theorem toLower_toNat (c : Char) :
    (Char.toLower c).toNat = if 65 ≤ c.toNat ∧ c.toNat ≤ 90 then c.toNat + 32 else c.toNat := by
  unfold Char.toLower
  by_cases h : c.toNat ≥ 65 ∧ c.toNat ≤ 90
  · have hv := toNat_ofNat_valid (c.toNat + 32) (by omega) (by omega)
    simp [h, hv]
  · simp [h]

theorem toUpper_toNat (c : Char) :
    (Char.toUpper c).toNat = if 97 ≤ c.toNat ∧ c.toNat ≤ 122 then c.toNat - 32 else c.toNat := by
  unfold Char.toUpper
  by_cases h : c.toNat ≥ 97 ∧ c.toNat ≤ 122
  · have hv := toNat_ofNat_valid (c.toNat - 32) (by omega) (by omega)
    simp [h, hv]
  · simp [h]

/-- ASCII case mapping identifies the same pairs of characters whichever
direction it is applied in. -/
theorem toLower_eq_iff_toUpper_eq (c d : Char) :
    Char.toLower c = Char.toLower d ↔ Char.toUpper c = Char.toUpper d := by
  constructor
  · intro h
    apply char_toNat_inj
    have h' : (Char.toLower c).toNat = (Char.toLower d).toNat := by rw [h]
    rw [toLower_toNat, toLower_toNat] at h'
    rw [toUpper_toNat, toUpper_toNat]
    split_ifs at h' ⊢ <;> omega
  · intro h
    apply char_toNat_inj
    have h' : (Char.toUpper c).toNat = (Char.toUpper d).toNat := by rw [h]
    rw [toUpper_toNat, toUpper_toNat] at h'
    rw [toLower_toNat, toLower_toNat]
    split_ifs at h' ⊢ <;> omega

theorem map_congr_of_case {f g : Char → Char}
    (hfg : ∀ c d : Char, f c = f d → g c = g d) :
    ∀ {a b : List Char}, a.map f = b.map f → a.map g = b.map g := by
  intro a
  induction a with
  | nil => intro b h; cases b <;> simp_all
  | cons x xs ih =>
      intro b h
      cases b with
      | nil => simp at h
      | cons y ys =>
          simp only [List.map_cons, List.cons.injEq] at h ⊢
          exact ⟨hfg _ _ h.1, ih h.2⟩

theorem map_eq_append_inv {f : Char → Char} {l s t : List Char} (h : l.map f = s ++ t) :
    ∃ s' t', l = s' ++ t' ∧ s'.map f = s ∧ t'.map f = t := by
  refine ⟨l.take s.length, l.drop s.length, (l.take_append_drop _).symm, ?_, ?_⟩
  · rw [List.map_take, h, List.take_left]
  · rw [List.map_drop, h, List.drop_left]

theorem isInfix_map_transfer {f g : Char → Char}
    (hfg : ∀ c d : Char, f c = f d → g c = g d) {a b : List Char}
    (h : List.IsInfix (a.map f) (b.map f)) : List.IsInfix (a.map g) (b.map g) := by
  obtain ⟨s, t, hst⟩ := h
  obtain ⟨b1, rest, hb, hb1, hrest⟩ := map_eq_append_inv (l := b) (s := s) (t := a.map f ++ t)
    (by rw [← hst, List.append_assoc])
  obtain ⟨b2, b3, hb', hb2, hb3⟩ := map_eq_append_inv (l := rest) (s := a.map f) (t := t) hrest
  have hmid : b2.map g = a.map g := map_congr_of_case hfg hb2
  refine ⟨b1.map g, b3.map g, ?_⟩
  rw [hb, hb', ← hmid]
  simp

/-- The code's lowered-haystack keyword test agrees with the spec's
case-insensitive-containment reading, for any all-lowercase keyword. -/
theorem ciContains_eq_pyLower (k out : String)
    (hk : k.toList.map Char.toLower = k.toList) :
    ciContains k out = pyIn k (pyLower out) := by
  unfold ciContains pyIn pyUpper pyLower
  apply decide_eq_decide.mpr
  constructor
  · intro h
    show List.IsInfix k.toList (String.mk (out.toList.map Char.toLower)).toList
    rw [show (String.mk (out.toList.map Char.toLower)).toList = out.toList.map Char.toLower
      from rfl, ← hk]
    exact isInfix_map_transfer (fun c d hcd => (toLower_eq_iff_toUpper_eq c d).mpr hcd) h
  · intro h
    rw [show (String.mk (out.toList.map Char.toLower)).toList = out.toList.map Char.toLower
      from rfl, ← hk] at h
    exact isInfix_map_transfer (fun c d hcd => (toLower_eq_iff_toUpper_eq c d).mp hcd) h

theorem review_outcome_retry_lt {s : AgentState} (h : review_outcome s = "retry") :
    s.iteration_count < s.max_iterations := by
  by_contra hc
  push_neg at hc
  simp [review_outcome, hc] at h

theorem should_retry_retry_lt {s : AgentState} (h : should_retry s = "retry") :
    s.iteration_count < s.max_iterations := by
  unfold should_retry at h
  by_cases h1 : s.validation_passed = true
  · simp [h1] at h
  · by_contra hc
    push_neg at hc
    simp [h1, hc] at h

/-! ## Theorems for the claims -/

/-- **C10**: once the iteration count has reached the ceiling, the review
transition routes to the execute state regardless of the critique feedback
content. -/
theorem review_forces_pass_at_ceiling (fb : String) (s : AgentState)
    (h : s.max_iterations ≤ s.iteration_count) :
    review_outcome (review_code_node fb s) = "pass" := by
  simp [review_code_node, review_outcome, h]

/-- Witness for `review_forces_pass_at_ceiling`: a state at the ceiling
with clearly failing feedback is still routed to execution. -/
theorem review_forces_pass_at_ceiling_witness :
    (initialState "p" "python" 3).max_iterations ≤
      ({ initialState "p" "python" 3 with iteration_count := 3 }).iteration_count ∧
    review_outcome (review_code_node "FAIL: everything is wrong"
      { initialState "p" "python" 3 with iteration_count := 3 }) = "pass" :=
  ⟨by decide,
   review_forces_pass_at_ceiling "FAIL: everything is wrong"
     { initialState "p" "python" 3 with iteration_count := 3 } (by decide)⟩

/-- **C3**: below the ceiling, the review transition routes to execute iff
the feedback contains `PASS` case-insensitively, and otherwise routes back
to generate. -/
theorem review_routes_on_pass_token (fb : String) (s : AgentState)
    (h : s.iteration_count < s.max_iterations) :
    (review_outcome (review_code_node fb s) = "pass" ↔ ciContains "PASS" fb = true) ∧
    (review_outcome (review_code_node fb s) = "retry" ↔ ciContains "PASS" fb = false) := by
  have hlt : ¬ (s.max_iterations ≤ s.iteration_count) := by omega
  have hup : ciContains "PASS" fb = pyIn "PASS" (pyUpper fb) := rfl
  rw [hup]
  simp only [review_code_node, review_outcome]
  simp only [hlt, if_false]
  by_cases hp : pyIn "PASS" (pyUpper fb) = true <;> simp_all

/-- Witness for `review_routes_on_pass_token`: a lowercase `pass` verdict
routes forward, ordinary failing feedback routes back. -/
theorem review_routes_on_pass_token_witness :
    (initialState "p" "python" 3).iteration_count <
      (initialState "p" "python" 3).max_iterations ∧
    review_outcome (review_code_node "Looks good: pass." (initialState "p" "python" 3)) =
      "pass" ∧
    review_outcome (review_code_node "Two issues remain." (initialState "p" "python" 3)) =
      "retry" :=
  ⟨by decide,
   (review_routes_on_pass_token "Looks good: pass." (initialState "p" "python" 3)
      (by decide)).1.mpr (by decide),
   (review_routes_on_pass_token "Two issues remain." (initialState "p" "python" 3)
      (by decide)).2.mpr (by decide)⟩

/-- **C5**: for every tool oracle and state, the verdict passes iff the
diagnostic list is empty. -/
theorem validation_passed_iff_no_diagnostics (vo : ToolOracle) (s : AgentState) :
    (validate_code_node vo s).validation_passed = true ↔
    (validate_code_node vo s).validation_errors = [] := by
  simp [validate_code_node, List.length_eq_zero]

/-- **C8**: a completed sandbox run succeeds iff the exit code is exactly 0,
and stdout/stderr are the captured streams with surrounding whitespace
trimmed. -/
theorem execution_result_success_iff_exit_zero (statusCode : Int)
    (stdoutLog stderrLog : String) (elapsed timeoutSecs : Nat) :
    ((execute_in_container (.completed statusCode stdoutLog stderrLog elapsed)
        timeoutSecs).success = true ↔ statusCode = 0) ∧
    (execute_in_container (.completed statusCode stdoutLog stderrLog elapsed)
        timeoutSecs).output = pyStrip stdoutLog ∧
    (execute_in_container (.completed statusCode stdoutLog stderrLog elapsed)
        timeoutSecs).error = pyStrip stderrLog ∧
    (execute_in_container (.completed statusCode stdoutLog stderrLog elapsed)
        timeoutSecs).exit_code = statusCode := by
  refine ⟨by simp [execute_in_container], by simp [execute_in_container], ?_,
    by simp [execute_in_container]⟩
  by_cases h : stderrLog = ""
  · subst h; simp [execute_in_container, pyStrip]
  · simp [execute_in_container, h]

/-- **C2** (code bug): in the exception branch of `generate_code_node` the
returned dict carries no `iteration_count` key, so the iteration count is
NOT incremented when the synthesis collaborator raises — contradicting the
spec's "increment iteration count on every synthesis call, even on
failure". Evaluated at a concrete failing call. -/
theorem generate_exception_keeps_iteration_count :
    (generate_code_node (.error "Connection reset by peer") cex0).iteration_count =
      cex0.iteration_count ∧
    (generate_code_node (.error "Connection reset by peer") cex0).status = "failed" ∧
    cex0.iteration_count = 0 := by
  refine ⟨rfl, rfl, rfl⟩

/-- A language literally outside the supported set may still be lowered
into it: no branch of the executor or validator can then be `"python"` &c. -/
theorem ne_all_of_lower_not_supported {language : String}
    (hL : IMAGE_MAP_KEYS.contains (pyLower language) = false) :
    language ≠ "python" ∧ language ≠ "javascript" ∧ language ≠ "java" ∧
    language ≠ "c" ∧ language ≠ "cpp" ∧ language ≠ "go" := by
  refine ⟨?_, ?_, ?_, ?_, ?_, ?_⟩ <;> rintro rfl <;> revert hL <;> decide

/-- **C4 counterexample**: `"Python"` is not in the supported set (the
closed enumeration is all-lowercase), yet `execute_code` lowercases before
checking and therefore launches a container and can even succeed, instead
of failing with exit code −1 — so the claim, quantified over every language
string outside the set, is false. -/
theorem unsupported_language_counterexample :
    IMAGE_MAP_KEYS.contains "Python" = false ∧
    (execute_code (.completed 0 "1" "" 5) "print(1)" "Python" 30).2 = 1 ∧
    (execute_code (.completed 0 "1" "" 5) "print(1)" "Python" 30).1.success = true := by
  refine ⟨rfl, rfl, rfl⟩

/-- **C4 amended**: for every language string whose *lowercasing* is outside
the supported set, `execute_code` returns failure with exit code −1 and an
error naming the (lowercased) language without consulting the container
oracle (container count 0, result oracle-independent), and
`validate_code_node` returns a failing verdict whose diagnostic list is
exactly one entry naming the language, also without consulting any tool
oracle. -/
theorem unsupported_language_rejected_without_container
    (language code : String) (oc oc' : ContainerOutcome) (vo vo' : ToolOracle)
    (t : Nat) (s : AgentState)
    (hL : IMAGE_MAP_KEYS.contains (pyLower language) = false)
    (hs : s.target_language = language) :
    execute_code oc code language t =
      ({ success := false, output := "", error := "Unsupported language: " ++ pyLower language,
         exit_code := -1, execution_time_ms := 0 }, 0) ∧
    execute_code oc code language t = execute_code oc' code language t ∧
    (validate_code_node vo s).validation_passed = false ∧
    (validate_code_node vo s).validation_errors = ["Unsupported language: " ++ language] ∧
    validationOutcome vo language = validationOutcome vo' language := by
  obtain ⟨h1, h2, h3, h4, h5, h6⟩ := ne_all_of_lower_not_supported hL
  have hL' : pyLower language ∉ IMAGE_MAP_KEYS := by simpa using hL
  refine ⟨by simp [execute_code, hL'], by simp [execute_code, hL'], ?_, ?_, ?_⟩
  · simp [validate_code_node, validationOutcome, hs, h1, h2, h3, h4, h5, h6]
  · simp [validate_code_node, validationOutcome, hs, h1, h2, h3, h4, h5, h6]
  · simp [validationOutcome, h1, h2, h3, h4, h5, h6]

/-- Witness for `unsupported_language_rejected_without_container` at
`language = "ruby"`. -/
theorem unsupported_language_rejected_without_container_witness :
    IMAGE_MAP_KEYS.contains (pyLower "ruby") = false ∧
    (initialState "p" "ruby" 3).target_language = "ruby" ∧
    (execute_code (.completed 0 "out" "" 5) "puts 1" "ruby" 30 =
      ({ success := false, output := "", error := "Unsupported language: " ++ pyLower "ruby",
         exit_code := -1, execution_time_ms := 0 }, 0) ∧
     execute_code (.completed 0 "out" "" 5) "puts 1" "ruby" 30 =
       execute_code (.otherError "timeout" 9) "puts 1" "ruby" 30 ∧
     (validate_code_node (fun _ => .ok "") (initialState "p" "ruby" 3)).validation_passed =
       false ∧
     (validate_code_node (fun _ => .ok "") (initialState "p" "ruby" 3)).validation_errors =
       ["Unsupported language: " ++ "ruby"] ∧
     validationOutcome (fun _ => .ok "") "ruby" =
       validationOutcome (fun _ => .error "boom") "ruby") :=
  ⟨by decide, rfl,
   unsupported_language_rejected_without_container "ruby" "puts 1"
     (.completed 0 "out" "" 5) (.otherError "timeout" 9) (fun _ => .ok "")
     (fun _ => .error "boom") 30 (initialState "p" "ruby" 3) (by decide) rfl⟩

/-- Any output the Python validator substitutes for a raising tool starts
with `"Error running "`, hence is escalated by the node's (case-sensitive)
`"Error"` test. -/
theorem pyEscalates_error_running (rest : String) :
    pyEscalates ("Error running " ++ rest) = true := by
  unfold pyEscalates pyIn
  apply Bool.or_eq_true_iff.mpr
  left
  apply Bool.or_eq_true_iff.mpr
  left
  apply Bool.and_eq_true_iff.mpr
  constructor
  · have hd : ("Error running " ++ rest).toList = "Error running ".toList ++ rest.toList := rfl
    simp only [ne_eq, decide_eq_true_eq]
    intro h
    have := congrArg String.toList h
    rw [hd] at this
    simp at this
  · apply decide_eq_true
    refine ⟨[], (" running " ++ rest).toList, ?_⟩
    have h : ("Error running " ++ rest) = "Error" ++ (" running " ++ rest) := rfl
    rw [h]
    rfl

/-- **C7 counterexample**: in the Go battery a raise in the first tool
(`go vet`) aborts the whole validator, so `go build`'s output is never
collected: the verdict's details are empty and its single diagnostic is the
node-level engine-error capture, although the oracle had output for
`gobuild`. -/
theorem go_battery_abort_counterexample :
    goValidate goBoomOracle = .error "docker daemon hiccup" ∧
    (validationOutcome goBoomOracle "go").1 =
      ["Validation engine error: docker daemon hiccup"] ∧
    (validationOutcome goBoomOracle "go").2 = [] ∧
    goBoomOracle "gobuild" = .ok "build output: fine" := by
  refine ⟨rfl, rfl, rfl, rfl⟩

/-- **C7 amended**: in the Python battery a raising tool is captured as an
`"Error running ..."` entry, the other tools' outputs are still collected
(and judged: the captured failure surfaces in the verdict's diagnostics),
while in the Go battery a raise propagates and the node captures it as the
single `"Validation engine error: ..."` diagnostic, the remaining tool
uncollected. -/
theorem tool_failure_isolation (vo vg : ToolOracle) (t e eg : String)
    (h1 : t ∈ ["pylint", "flake8", "bandit", "black"])
    (h2 : vo t = .error e)
    (hg : goValidate vg = .error eg) :
    detailsGet (pythonValidate vo) t = "Error running " ++ t ++ ": " ++ e ∧
    (∀ t' o, t' ∈ ["pylint", "flake8", "bandit", "black"] → t' ≠ t → vo t' = .ok o →
       detailsGet (pythonValidate vo) t' = o) ∧
    escalationMsg t ("Error running " ++ t ++ ": " ++ e) ∈ (validationOutcome vo "python").1 ∧
    (validationOutcome vg "go").1 = ["Validation engine error: " ++ eg] := by
  have hmain : detailsGet (pythonValidate vo) t = "Error running " ++ t ++ ": " ++ e := by
    simp only [List.mem_cons, List.mem_singleton, List.not_mem_nil, or_false] at h1
    rcases h1 with rfl | rfl | rfl | rfl <;>
      simp [pythonValidate, detailsGet, h2, List.lookup, ← String.append_assoc]
  refine ⟨hmain, ?_, ?_, by simp [validationOutcome, hg]⟩
  · intro t' o h1' hne h3
    simp only [List.mem_cons, List.mem_singleton, List.not_mem_nil, or_false] at h1 h1'
    rcases h1 with rfl | rfl | rfl | rfl <;> rcases h1' with rfl | rfl | rfl | rfl <;>
      first
        | exact absurd rfl hne
        | simp [pythonValidate, detailsGet, h3, List.lookup]
  · show escalationMsg t ("Error running " ++ t ++ ": " ++ e) ∈
      collectErrors ["pylint", "flake8", "bandit", "black"] pyEscalates (pythonValidate vo)
    unfold collectErrors
    apply List.mem_filterMap.mpr
    refine ⟨t, h1, ?_⟩
    rw [hmain]
    have hesc := pyEscalates_error_running (t ++ ": " ++ e)
    rw [show "Error running " ++ (t ++ ": " ++ e) = "Error running " ++ t ++ ": " ++ e by
      simp [String.append_assoc]] at hesc
    simp [hesc]

/-- Witness for `tool_failure_isolation`: `flake8` raises, `go vet` raises. -/
theorem tool_failure_isolation_witness :
    ((fun tl => if tl = "flake8" then .error "tool exploded" else .ok "clean" : ToolOracle)
        "flake8" = .error "tool exploded") ∧
    goValidate goBoomOracle = .error "docker daemon hiccup" ∧
    (detailsGet (pythonValidate
        (fun tl => if tl = "flake8" then .error "tool exploded" else .ok "clean")) "flake8" =
      "Error running " ++ "flake8" ++ ": " ++ "tool exploded" ∧
     (∀ t' o, t' ∈ ["pylint", "flake8", "bandit", "black"] → t' ≠ "flake8" →
        (fun tl => if tl = "flake8" then .error "tool exploded" else .ok "clean" : ToolOracle)
          t' = .ok o →
        detailsGet (pythonValidate
          (fun tl => if tl = "flake8" then .error "tool exploded" else .ok "clean")) t' = o) ∧
     escalationMsg "flake8" ("Error running " ++ "flake8" ++ ": " ++ "tool exploded") ∈
       (validationOutcome
         (fun tl => if tl = "flake8" then .error "tool exploded" else .ok "clean")
         "python").1 ∧
     (validationOutcome goBoomOracle "go").1 =
       ["Validation engine error: " ++ "docker daemon hiccup"]) :=
  ⟨rfl, rfl,
   tool_failure_isolation
     (fun tl => if tl = "flake8" then .error "tool exploded" else .ok "clean")
     goBoomOracle "flake8" "tool exploded" "docker daemon hiccup"
     (by decide) rfl rfl⟩

/-- **C9**: parsing succeeds exactly when a language is detected, the
problem text is non-empty after stripping the language declaration and
structural headers, and the declared language normalizes into the supported
set; in every other case it fails with a parse error. -/
theorem parse_succeeds_iff (raw : String) :
    (parse_content raw).isOk = true ↔
    (∃ lang, extract_language (pyStrip raw) = some lang ∧
       (extract_problem (pyStrip raw) lang).isOk = true ∧
       (SUPPORTED_LANGUAGES.lookup (pyLower lang)).isSome = true) := by
  unfold parse_content
  by_cases hc : pyStrip raw = ""
  · rw [hc]
    have hnone : extract_language "" = none := by decide
    simp [hnone, Except.isOk, Except.toBool]
  · simp only [hc, if_false]
    cases hl : extract_language (pyStrip raw) with
    | none => simp [Except.isOk, Except.toBool]
    | some lang =>
        dsimp only
        cases hp : extract_problem (pyStrip raw) lang with
        | error e => simp [Except.isOk, Except.toBool, hp]
        | ok problem =>
            dsimp only
            cases hn : SUPPORTED_LANGUAGES.lookup (pyLower lang) with
            | none =>
                dsimp only
                constructor
                · intro h
                  simp [Except.isOk, Except.toBool] at h
                · rintro ⟨lang', hl', hp', hn'⟩
                  obtain rfl : lang = lang' := Option.some.inj hl'
                  rw [hn] at hn'
                  simp at hn'
            | some normalized =>
                dsimp only
                constructor
                · intro _
                  exact ⟨lang, rfl, by simp [hp, Except.isOk, Except.toBool],
                    by rw [hn]; rfl⟩
                · intro _
                  rfl

/-! ## C6: keyword escalation -/

theorem escalatesSpec_python_eq (out : String) :
    escalatesSpec "python" out = pyEscalates out := by
  have h0 := ciContains_eq_pyLower "warning" out (by decide)
  have h1 := ciContains_eq_pyLower "issue" out (by decide)
  by_cases hout : out = ""
  · subst hout; decide
  · simp only [escalatesSpec, ciKeywordsOf, pyEscalates, hout, reduceIte, String.reduceEq,
      List.any_cons, List.any_nil, decide_False, decide_True, Bool.false_and,
      Bool.false_or, Bool.true_and]
    rw [h0, h1]
    cases pyIn "Error" out <;> cases pyIn "warning" (pyLower out) <;> cases pyIn "issue" (pyLower out) <;> simp [hout]

theorem escalatesSpec_js_eq (out : String) :
    escalatesSpec "javascript" out = jsEscalates out := by
  have h0 := ciContains_eq_pyLower "error" out (by decide)
  have h1 := ciContains_eq_pyLower "problem" out (by decide)
  have h2 := ciContains_eq_pyLower "warning" out (by decide)
  by_cases hout : out = ""
  · subst hout; decide
  · simp only [escalatesSpec, ciKeywordsOf, jsEscalates, hout, reduceIte, String.reduceEq,
      List.any_cons, List.any_nil, decide_False, decide_True, Bool.false_and,
      Bool.false_or, Bool.true_and]
    rw [h0, h1, h2]
    cases pyIn "error" (pyLower out) <;> cases pyIn "problem" (pyLower out) <;> cases pyIn "warning" (pyLower out) <;> simp [hout]

theorem escalatesSpec_java_eq (out : String) :
    escalatesSpec "java" out = javaEscalates out := by
  have h0 := ciContains_eq_pyLower "error" out (by decide)
  have h1 := ciContains_eq_pyLower "exception" out (by decide)
  by_cases hout : out = ""
  · subst hout; decide
  · simp only [escalatesSpec, ciKeywordsOf, javaEscalates, hout, reduceIte, String.reduceEq,
      List.any_cons, List.any_nil, decide_False, decide_True, Bool.false_and,
      Bool.false_or, Bool.true_and]
    rw [h0, h1]
    cases pyIn "error" (pyLower out) <;> cases pyIn "exception" (pyLower out) <;> simp [hout]

theorem escalatesSpec_c_eq (out : String) :
    escalatesSpec "c" out = cEscalates out := by
  have h0 := ciContains_eq_pyLower "error" out (by decide)
  have h1 := ciContains_eq_pyLower "failed" out (by decide)
  have h2 := ciContains_eq_pyLower "warning" out (by decide)
  by_cases hout : out = ""
  · subst hout; decide
  · simp only [escalatesSpec, ciKeywordsOf, cEscalates, hout, reduceIte, String.reduceEq,
      List.any_cons, List.any_nil, decide_False, decide_True, Bool.false_and,
      Bool.false_or, Bool.true_and]
    rw [h0, h1, h2]
    cases pyIn "error" (pyLower out) <;> cases pyIn "failed" (pyLower out) <;> cases pyIn "warning" (pyLower out) <;> simp [hout]

theorem escalatesSpec_cpp_eq (out : String) :
    escalatesSpec "cpp" out = cEscalates out := by
  have h0 := ciContains_eq_pyLower "error" out (by decide)
  have h1 := ciContains_eq_pyLower "failed" out (by decide)
  have h2 := ciContains_eq_pyLower "warning" out (by decide)
  by_cases hout : out = ""
  · subst hout; decide
  · simp only [escalatesSpec, ciKeywordsOf, cEscalates, hout, reduceIte, String.reduceEq,
      List.any_cons, List.any_nil, decide_False, decide_True, Bool.false_and,
      Bool.false_or, Bool.true_and]
    rw [h0, h1, h2]
    cases pyIn "error" (pyLower out) <;> cases pyIn "failed" (pyLower out) <;> cases pyIn "warning" (pyLower out) <;> simp [hout]

theorem escalatesSpec_go_eq (out : String) :
    escalatesSpec "go" out = goEscalates out := by
  have h0 := ciContains_eq_pyLower "error" out (by decide)
  have h1 := ciContains_eq_pyLower "fail" out (by decide)
  have h2 := ciContains_eq_pyLower "warning" out (by decide)
  by_cases hout : out = ""
  · subst hout; decide
  · simp only [escalatesSpec, ciKeywordsOf, goEscalates, hout, reduceIte, String.reduceEq,
      List.any_cons, List.any_nil, decide_False, decide_True, Bool.false_and,
      Bool.false_or, Bool.true_and]
    rw [h0, h1, h2]
    cases pyIn "error" (pyLower out) <;> cases pyIn "fail" (pyLower out) <;> cases pyIn "warning" (pyLower out) <;> simp [hout]

theorem collectErrors_eq_filterMap (tools : List String) (cond : String → Bool)
    (spec : String → Bool) (d : List (String × String))
    (h : ∀ out, spec out = cond out) :
    (tools.filterMap fun tool =>
       if spec (detailsGet d tool) then some (escalationMsg tool (detailsGet d tool))
       else none) = collectErrors tools cond d := by
  unfold collectErrors
  induction tools with
  | nil => rfl
  | cons t ts ih => simp only [List.filterMap_cons, h, ih]

/-- **C6 counterexample**: pylint output containing lowercase `error`
satisfies the claim's case-insensitive keyword test, yet the python branch
of `validate_code_node` tests `"Error"` case-sensitively (Python precedence:
`out and "Error" in out or ...`) and escalates nothing. -/
theorem keyword_case_sensitivity_counterexample :
    claimEscalatesPython "error: invalid syntax" = true ∧
    (validationOutcome
      (fun tl => if tl = "pylint" then .ok "error: invalid syntax" else .ok "")
      "python").1 = [] := by
  refine ⟨by decide, by decide⟩

/-- **C6 amended**: for every supported language whose validator returns a
details dict, a tool's output is escalated exactly when the amended
predicate holds — for Python: output non-empty and containing `"Error"`
case-SENSITIVELY, or containing `warning`/`issue` case-insensitively; for
the other languages: output non-empty and containing one of the designated
keywords case-insensitively — and every escalated diagnostic is the tool
name plus a 200-character-bounded prefix of the whitespace-stripped
output. -/
theorem diagnostics_escalation_characterized (lang : String)
    (hmem : lang ∈ (["python", "javascript", "java", "c", "cpp", "go"] : List String))
    (vo : ToolOracle) (d : List (String × String))
    (hd : validatorDetails vo lang = .ok d) :
    (validationOutcome vo lang).1 = (batteryOf lang).filterMap (fun tool =>
      if escalatesSpec lang (detailsGet d tool)
      then some (escalationMsg tool (detailsGet d tool)) else none) := by
  simp only [List.mem_cons, List.mem_singleton, List.not_mem_nil, or_false] at hmem
  rcases hmem with rfl | rfl | rfl | rfl | rfl | rfl
  · simp only [validatorDetails, reduceIte, String.reduceEq, if_true, if_false,
        Except.ok.injEq] at hd
    subst hd
    simp only [validationOutcome, reduceIte, String.reduceEq, if_true, if_false, batteryOf]
    exact (collectErrors_eq_filterMap _ _ _ _ escalatesSpec_python_eq).symm
  · simp only [validatorDetails, reduceIte, String.reduceEq, if_true, if_false,
        Except.ok.injEq] at hd
    subst hd
    simp only [validationOutcome, reduceIte, String.reduceEq, if_true, if_false, batteryOf]
    exact (collectErrors_eq_filterMap _ _ _ _ escalatesSpec_js_eq).symm
  · simp only [validatorDetails, reduceIte, String.reduceEq, if_true, if_false] at hd
    simp only [validationOutcome, reduceIte, String.reduceEq, if_true, if_false, batteryOf, hd]
    exact (collectErrors_eq_filterMap _ _ _ _ escalatesSpec_java_eq).symm
  · simp only [validatorDetails, reduceIte, String.reduceEq, if_true, if_false,
        Except.ok.injEq] at hd
    subst hd
    simp only [validationOutcome, reduceIte, String.reduceEq, if_true, if_false, batteryOf]
    exact (collectErrors_eq_filterMap _ _ _ _ escalatesSpec_c_eq).symm
  · simp only [validatorDetails, reduceIte, String.reduceEq, if_true, if_false] at hd
    simp only [validationOutcome, reduceIte, String.reduceEq, if_true, if_false, batteryOf, hd]
    exact (collectErrors_eq_filterMap _ _ _ _ escalatesSpec_cpp_eq).symm
  · simp only [validatorDetails, reduceIte, String.reduceEq, if_true, if_false] at hd
    simp only [validationOutcome, reduceIte, String.reduceEq, if_true, if_false, batteryOf, hd]
    exact (collectErrors_eq_filterMap _ _ _ _ escalatesSpec_go_eq).symm

/-- Witness for `diagnostics_escalation_characterized` at the Python
battery with one case-sensitively flagged output. -/
theorem diagnostics_escalation_characterized_witness :
    validatorDetails (fun tl => if tl = "pylint" then .ok "Error: bad name" else .ok "")
        "python" =
      .ok (pythonValidate (fun tl => if tl = "pylint" then .ok "Error: bad name" else .ok "")) ∧
    (validationOutcome (fun tl => if tl = "pylint" then .ok "Error: bad name" else .ok "")
        "python").1 =
      (batteryOf "python").filterMap (fun tool =>
        if escalatesSpec "python"
            (detailsGet (pythonValidate
              (fun tl => if tl = "pylint" then .ok "Error: bad name" else .ok "")) tool)
        then some (escalationMsg tool
            (detailsGet (pythonValidate
              (fun tl => if tl = "pylint" then .ok "Error: bad name" else .ok "")) tool))
        else none) :=
  ⟨rfl,
   diagnostics_escalation_characterized "python" (by decide)
     (fun tl => if tl = "pylint" then .ok "Error: bad name" else .ok "")
     (pythonValidate (fun tl => if tl = "pylint" then .ok "Error: bad name" else .ok ""))
     rfl⟩

/-! ## C1: the iteration-count bound of the workflow machine -/

/-- Every workflow transition preserves the per-phase count invariant. -/
theorem step_preserves_countInv {c c' : Phase × AgentState}
    (hstep : Step c c') (hinv : countInv c.1 c.2) : countInv c'.1 c'.2 := by
  cases hstep with
  | generate llm s =>
      cases llm with
      | ok g => simp only [countInv, generate_code_node] at hinv ⊢; omega
      | error e => simp only [countInv, generate_code_node] at hinv ⊢; omega
  | review_pass fb s h =>
      simp only [countInv, review_code_node] at hinv ⊢
      exact hinv
  | review_retry fb s h =>
      exact review_outcome_retry_lt h
  | execute exo s =>
      cases exo with
      | ok oc => simp only [countInv, execute_code_node] at hinv ⊢; omega
      | error e => simp only [countInv, execute_code_node] at hinv ⊢; omega
  | validate_complete vo s h =>
      simp only [countInv, validate_code_node] at hinv ⊢
      omega
  | validate_retry vo s h =>
      exact should_retry_retry_lt h
  | document s =>
      simp only [countInv, generate_document_node] at hinv ⊢
      exact hinv

/-- **C1 amended**: a session started at iteration count 0 with ceiling at
least 1 (the settings validator enforces `max_iterations >= 1`) terminates
with iteration count at most `max_iterations + 1`: one increment per
synthesis call plus the extra increment `validate_code_node` performs after
the ceiling-forced review pass. -/
theorem session_iteration_count_bounded (s0 : AgentState)
    (h0 : s0.iteration_count = 0) (hmax : 1 ≤ s0.max_iterations)
    (sf : AgentState) (h : Reaches (.generate, s0) (.done, sf)) :
    sf.iteration_count ≤ sf.max_iterations + 1 := by
  have hinv : ∀ c, Reaches (.generate, s0) c → countInv c.1 c.2 := by
    intro c hc
    induction hc with
    | refl => simp only [countInv]; omega
    | tail hr hstep ih => exact step_preserves_countInv hstep ih
  exact hinv (.done, sf) h

/-- The concrete ceiling-1 run, assembled transition by transition. -/
theorem cexRunReaches : Reaches (.generate, cex0) (.done, cex5) := by
  refine Relation.ReflTransGen.head
    (Step.generate (.ok ⟨"print(1)", "print(1)", 12⟩) cex0) ?_
  refine Relation.ReflTransGen.head
    (Step.review_pass "The code is wrong; it does not print 1." cex1 (by decide)) ?_
  refine Relation.ReflTransGen.head
    (Step.execute (.ok (.completed 0 "1" "" 57)) cex2) ?_
  refine Relation.ReflTransGen.head
    (Step.validate_complete (fun _ => .ok "") cex3 (by decide)) ?_
  exact Relation.ReflTransGen.single (Step.document cex4)

/-- **C1 counterexample**: with ceiling 1 the machine reaches a terminal
state whose iteration count is 2 — the claim's bound
`iteration_count ≤ max_iterations` is violated, because
`validate_code_node` increments the count a second time after the review
node's ceiling-forced pass. -/
theorem ceiling_exceeded_counterexample :
    Reaches (.generate, cex0) (.done, cex5) ∧
    cex0.iteration_count = 0 ∧ cex0.max_iterations = 1 ∧
    cex5.iteration_count = 2 ∧ cex5.max_iterations = 1 ∧
    ¬ (cex5.iteration_count ≤ cex5.max_iterations) :=
  ⟨cexRunReaches, rfl, rfl, rfl, rfl, by decide⟩

/-- Witness for `session_iteration_count_bounded` on the concrete
ceiling-1 run. -/
theorem session_iteration_count_bounded_witness :
    cex0.iteration_count = 0 ∧ 1 ≤ cex0.max_iterations ∧
    cex5.iteration_count ≤ cex5.max_iterations + 1 :=
  ⟨rfl, by decide,
   session_iteration_count_bounded cex0 rfl (by decide) cex5 cexRunReaches⟩

end AiCodeAgent
